import Mathlib

/-!
Verification of the training-orchestration script
`new_main_supcon_Generalization.py` of the repository
"Time-frequency Graph and Siamese Network for few-Shot radio
frequency fingerprinting".

The script is shallowly embedded below.  Python floats are modelled as
exact rationals `ℚ` (and as `ℝ` where the code calls `math.cos`);
tensors are modelled as lists indexed by the batch dimension; fallible
steps (argparse rejection, `assert`, `raise ValueError`) return
`Option`/`Except` or an error component of the result.

External collaborators that live outside the single source file
(`util.AverageMeter`, `util.save_model`, the encoder networks, the loss
functions) are modelled from the specification where a claim needs
them; each such definition says so in its doc comment.
-/

/-! ## Command-line arguments (src lines 22-52)

One field per `add_argument` call that the claims touch, with the
argparse defaults.  `mean`, `std`, `data_folder` are optional strings
(`None` when not passed).  Paths/`model_name`/directory creation
(src lines 58-90) are filesystem glue outside every claim and are not
modelled. -/

structure Args where
  print_freq : Nat := 10
  save_freq : Nat := 4
  batch_size : Nat := 256
  epochs : Nat := 1000
  learning_rate : ℚ := 5 / 100
  lr_decay_epochs : String := "700,800,900"
  lr_decay_rate : ℚ := 1 / 10
  model : String := "CustomCNN"
  dataset : String := "sp"
  mean : Option String := none
  std : Option String := none
  data_folder : Option String := none
  method : String := "SupCon"
  temp : ℚ := 7 / 100
  cosine : Bool := false
  warm : Bool := false
  trial : String := "0"
  deriving DecidableEq

/-- The closed choice set of `--dataset` (src line 38). -/
def datasetChoices : List String := ["rf", "sp"]

/-- The closed choice set of `--method` (src line 44). -/
def methodChoices : List String := ["SupCon", "SimCLR"]

/-- Names for which the `dataset == sp` branch of `set_model`
(src lines 119-125) constructs a model. -/
def registryNames : List String := ["CustomCNN", "CustomCNNmini", "CustomCNNminidrop"]

/-- The parsed option record produced by `parse_option`
(src lines 22-92), restricted to the fields the claims about this
program mention.  `warmup_from` and `warm_epochs` are `none` when the
warm branch (src lines 73-76) did not run.  `warmup_to` involves
`math.cos` and is kept as the separate real-valued function
`warmup_to_code` below. -/
structure Opt where
  print_freq : Nat
  save_freq : Nat
  batch_size : Nat
  epochs : Nat
  learning_rate : ℚ
  lr_decay_epochs : List Int
  lr_decay_rate : ℚ
  model : String
  dataset : String
  data_folder : String
  method : String
  temp : ℚ
  cosine : Bool
  warm : Bool
  warmup_from : Option ℚ
  warm_epochs : Option Nat
  deriving DecidableEq

/-- Splitting a character list at commas, as `str.split(',')` does:
one (possibly empty) group per comma-separated stretch. -/
def split_commas (cs : List Char) : List (List Char) :=
  match cs with
  | [] => [[]]
  | c :: rest =>
    let r := split_commas rest
    if c = ',' then [] :: r
    else
      match r with
      | [] => [[c]]
      | g :: gs => (c :: g) :: gs

def digit_val (c : Char) : Option Nat :=
  if '0' ≤ c ∧ c ≤ '9' then some (c.toNat - '0'.toNat) else none

/-- Decimal digit strings as `int(...)` reads them; `none` when a
character is not a digit or the string is empty, where `int(...)`
raises `ValueError`. -/
def parse_nat_chars : List Char → Option Nat
  | [] => none
  | cs => cs.foldl (fun acc c =>
      match acc, digit_val c with
      | some n, some d => some (10 * n + d)
      | _, _ => none) (some 0)

/-- Reading of `int(...)` on one comma group: an optional minus sign
followed by decimal digits. -/
def parse_int_chars : List Char → Option Int
  | '-' :: rest => (parse_nat_chars rest).map (fun n => -(n : Int))
  | cs => (parse_nat_chars cs).map (fun n => (n : Int))

/-- Conversion of the `--lr_decay_epochs` comma string to an int list
(src lines 61-62): split on commas, `int(...)` each piece; `none` when
a piece is not an integer literal. -/
def parse_lr_decay_epochs (s : String) : Option (List Int) :=
  (split_commas s.toList).mapM parse_int_chars

/-- Assembly of the option record after all checks passed
(src lines 53-82): default the data folder, force `warm` on for large
batches (src lines 71-72), and when warm set `warmup_from = 0.01` and
`warm_epochs = 10` (src lines 75-76). -/
def mk_opt (a : Args) (milestones : List Int) : Opt :=
  let warm := if 256 < a.batch_size then true else a.warm
  { print_freq := a.print_freq
    save_freq := a.save_freq
    batch_size := a.batch_size
    epochs := a.epochs
    learning_rate := a.learning_rate
    lr_decay_epochs := milestones
    lr_decay_rate := a.lr_decay_rate
    model := a.model
    dataset := a.dataset
    data_folder := a.data_folder.getD "./datasets/"
    method := a.method
    temp := a.temp
    cosine := a.cosine
    warm := warm
    warmup_from := if warm then some (1 / 100) else none
    warm_epochs := if warm then some 10 else none }

/-- Embedding of `parse_option` (src lines 22-92).  `none` models a
run that never returns an option record: argparse rejects a value
outside a choice set (src lines 38, 44), the `assert` on line 54
fails, or `int(...)` on line 62 raises. -/
def parse_option (a : Args) : Option Opt :=
  if a.dataset ∈ datasetChoices ∧ a.method ∈ methodChoices then
    if (a.dataset = "path" ∨ a.dataset = "rf") ∧
        ¬(a.data_folder.isSome ∧ a.mean.isSome ∧ a.std.isSome) then
      none
    else
      (parse_lr_decay_epochs a.lr_decay_epochs).map (mk_opt a)
  else
    none

/-- Everything a successful parse guarantees: the choice sets held,
the `rf`/`path` assert held, and the record is `mk_opt` of the parsed
milestone list. -/
theorem parse_option_eq_some (a : Args) (o : Opt) (h : parse_option a = some o) :
    a.dataset ∈ datasetChoices ∧ a.method ∈ methodChoices ∧
    ((a.dataset = "path" ∨ a.dataset = "rf") →
      a.data_folder.isSome ∧ a.mean.isSome ∧ a.std.isSome) ∧
    ∃ ms, parse_lr_decay_epochs a.lr_decay_epochs = some ms ∧ o = mk_opt a ms := by
  unfold parse_option at h
  split at h
  · next hc =>
    split at h
    · exact absurd h (by simp)
    · next hassert =>
      rcases Option.map_eq_some'.mp h with ⟨ms, hms, hmk⟩
      refine ⟨hc.1, hc.2, ?_, ms, hms, hmk.symm⟩
      intro hpath
      by_contra hnot
      exact hassert ⟨hpath, hnot⟩
  · exact absurd h (by simp)

/-! ## Batch assembler (src lines 156, 164-166) -/

/-- Concatenation of two batch tensors along dim 0
(`torch.cat([images[0], images[1]], dim=0)`, src line 156): the rows of
the first followed by the rows of the second. -/
def torch_cat {α : Type u} (t1 t2 : List α) : List α := t1 ++ t2

/-- Two-way split of a batch tensor at dim 0
(`torch.split(features, [bsz, bsz], dim=0)`, src line 165).  As in
torch, the section sizes must add up to the dim-0 size; otherwise the
call raises, modelled by `none`. -/
def torch_split2 {α : Type u} (t : List α) (b : Nat) : Option (List α × List α) :=
  if t.length = b + b then some (t.take b, t.drop b) else none

/-- Pairing of the two per-view embedding halves into the `[B, 2, D]`
tensor (`torch.cat([f1.unsqueeze(1), f2.unsqueeze(1)], dim=1)`,
src line 166): row `i` holds view 1's and view 2's embedding of
sample `i`. -/
def pair_views {β : Type u} (f1 f2 : List β) : List (β × β) := f1.zip f2

/-! ## Loss dispatch (src lines 167-170) -/

/-- How the criterion is invoked: with the features and the labels, or
with the features alone. -/
inductive LossCall (F L : Type u) where
  | withLabels (features : F) (labels : L)
  | featuresOnly (features : F)
  deriving DecidableEq

/-- The dispatch on `opt.method` in `train` (src lines 167-170):
`SupCon` calls `criterion(features, labels)`, `SimCLR` calls
`criterion(features)`, and any other string falls through both
branches, so no loss is computed (`none`). -/
def loss_dispatch {F L : Type u} (method : String) (features : F) (labels : L) :
    Option (LossCall F L) :=
  if method = "SupCon" then some (LossCall.withLabels features labels)
  else if method = "SimCLR" then some (LossCall.featuresOnly features)
  else none

/-! ## Loader and model selection (src lines 95-142) -/

/-- The train transform built by `set_loader`; only the `sp` branch
(src lines 96-103) exists. -/
inductive Transform where
  | spTrainTransform
  deriving DecidableEq

/-- Embedding of `set_loader` (src lines 95-115): the `sp` dataset gets
the composed transform and the `SPDataset` loader; every other dataset
value reaches the `else` branch and raises
`ValueError('dataset not supported: ...')` (src line 105). -/
def set_loader (o : Opt) : Except String Transform :=
  if o.dataset = "sp" then Except.ok Transform.spTrainTransform
  else Except.error ("dataset not supported: " ++ o.dataset)

/-- The encoder selected by `set_model`. -/
inductive ModelKind where
  | CustomCNN
  | CustomCNNmini
  | CustomCNNminidrop
  | SupConResNet (name : String)
  deriving DecidableEq

/-- Outcome of the model-selection branch of `set_model`
(src lines 119-129).  `unboundWithPrint msg` records that the branch
printed `msg` and fell through with the local variable `model` never
assigned; `raised` would record an exception thrown at the branch —
no branch of the source throws one. -/
inductive SelectOutcome where
  | selected (m : ModelKind)
  | unboundWithPrint (printed : String)
  | raised (msg : String)
  deriving DecidableEq

/-- Embedding of the selection branch of `set_model`
(src lines 119-129): for dataset `sp` the three registry names build
their models and any other name only prints `没找到模型<name>`
(src line 127); for other datasets `SupConResNet(name=opt.model)` is
built. -/
def set_model_select (dataset model : String) : SelectOutcome :=
  if dataset = "sp" then
    if model = "CustomCNN" then SelectOutcome.selected ModelKind.CustomCNN
    else if model = "CustomCNNmini" then SelectOutcome.selected ModelKind.CustomCNNmini
    else if model = "CustomCNNminidrop" then SelectOutcome.selected ModelKind.CustomCNNminidrop
    else SelectOutcome.unboundWithPrint ("没找到模型" ++ model)
  else SelectOutcome.selected (ModelKind.SupConResNet model)

/-! ## Metric accumulator and the loss bookkeeping of train -/

/-- Modelled from the spec: `util.AverageMeter` is imported on src
line 15 but `util.py` is not under src/.  Spec section 4.1:
`update(value, weight)` adds `value*weight` to an internal sum and
`weight` to an internal count; `average` returns `sum/count`. -/
structure AverageMeter where
  sum : ℚ
  count : ℚ
  deriving DecidableEq

/-- A freshly constructed meter (`AverageMeter()`), holding no
updates. -/
def AverageMeter.init : AverageMeter := { sum := 0, count := 0 }

/-- One `update(v, w)` call (spec section 4.1). -/
def AverageMeter.update (m : AverageMeter) (v w : ℚ) : AverageMeter :=
  { sum := m.sum + v * w, count := m.count + w }

/-- The running average `sum/count` (spec section 4.1).  `ℚ` division
gives `0` for the never-updated meter. -/
def AverageMeter.avg (m : AverageMeter) : ℚ := m.sum / m.count

/-- The loss bookkeeping of one `train` call (src lines 150, 172, 189):
`losses = AverageMeter()` is constructed fresh inside the call, then
updated once per step with the criterion's value weighted by the batch
size.  `steps` lists the per-step `(loss.item(), bsz)` pairs the
externals produced. -/
def train_loss_meter (steps : List (ℚ × ℚ)) : AverageMeter :=
  steps.foldl (fun m s => m.update s.1 s.2) AverageMeter.init

/-- The value `train` returns (`losses.avg`, src line 189). -/
def train_avg (steps : List (ℚ × ℚ)) : ℚ := (train_loss_meter steps).avg

/-- The weighted mean of a step list, the closed form of
`train_avg`. -/
def weighted_avg (steps : List (ℚ × ℚ)) : ℚ :=
  (steps.map (fun s => s.1 * s.2)).sum / (steps.map (fun s => s.2)).sum

/-- What the claim under examination says the reported average is: the
mean over all updates since the start of training, i.e. over the steps
of epochs `1..e` concatenated. -/
def cumulative_avg (lossOf : Nat → List (ℚ × ℚ)) (e : Nat) : ℚ :=
  train_avg (((List.range' 1 e).map lossOf).flatten)

/-! ## The driver: main (src lines 192-221)

The observable actions of `main` are recorded as an event trace.
`adjust_learning_rate`, `warmup_learning_rate`, `set_optimizer` and
`save_model` live in `util.py`, which is not under src/; per spec
section 4.4 `save_model(model, optimizer, opt, epoch, file)` writes one
snapshot recording the given epoch number at the given destination,
which the trace records as a `save` event. -/

/-- One observable action of `main`. -/
inductive Event where
  | loaderBuilt (t : Transform)
  | modelBuilt (m : ModelKind)
  | stepRun (epoch idx : Nat)
  | logLoss (epoch : Nat) (avg : ℚ)
  | logLr (epoch : Nat)
  | save (file : String) (epoch : Nat)
  deriving DecidableEq

/-- The events of one iteration of the epoch loop (src lines 203-217):
the steps of `train`, the two `logger.log_value` calls, and — when
`epoch % save_freq == 0` — the `ckpt_epoch_<epoch>.pth` checkpoint
written with that epoch number (src lines 214-217). -/
def epoch_events (o : Opt) (lossOf : Nat → List (ℚ × ℚ)) (e : Nat) : List Event :=
  ((List.range (lossOf e).length).map (fun i => Event.stepRun e i))
    ++ [Event.logLoss e (train_avg (lossOf e)), Event.logLr e]
    ++ (if e % o.save_freq = 0 then
          [Event.save ("ckpt_epoch_" ++ toString e ++ ".pth") e] else [])

/-- Embedding of `main` (src lines 192-221) as the pair of the events
it performed and the error it stopped with (`none` for a clean exit).
`lossOf e` is the list of `(loss, bsz)` observations of epoch `e`,
produced by the external encoder/criterion.  The stages in order:
`parse_option`, `set_loader` (raises for non-`sp` datasets before any
loader exists), `set_model` (an unbound `model` raises at
`return model, criterion`, src line 142), then the epoch loop
`range(1, epochs+1)` and the final `last.pth` checkpoint written with
epoch number `opt.epochs` (src lines 219-221). -/
def main_run (args : Args) (lossOf : Nat → List (ℚ × ℚ)) :
    List Event × Option String :=
  match parse_option args with
  | none => ([], some "argument parsing failed")
  | some o =>
    match set_loader o with
    | Except.error e => ([], some e)
    | Except.ok t =>
      match set_model_select o.dataset o.model with
      | SelectOutcome.unboundWithPrint _ =>
          ([Event.loaderBuilt t],
           some "UnboundLocalError: local variable model referenced before assignment")
      | SelectOutcome.raised msg => ([Event.loaderBuilt t], some msg)
      | SelectOutcome.selected m =>
          let evs := (List.range' 1 o.epochs).foldl
            (fun acc e => acc ++ epoch_events o lossOf e) []
          (Event.loaderBuilt t :: Event.modelBuilt m ::
             (evs ++ [Event.save "last.pth" o.epochs]), none)

/-- The checkpoint writes of a trace, in order, as
(filename, recorded epoch) pairs. -/
def saves_of (evs : List Event) : List (String × Nat) :=
  evs.filterMap (fun ev =>
    match ev with
    | Event.save f e => some (f, e)
    | _ => none)

/-! ## Warmup precomputation (src lines 73-82) -/

/-- The value `parse_option` stores in `opt.warmup_to`
(src lines 77-82), as a function of the fields it reads: in the cosine
case `eta_min + (lr - eta_min) * (1 + cos(pi * warm_epochs / epochs)) / 2`
with `eta_min = lr * lr_decay_rate ** 3`, otherwise the base rate. -/
noncomputable def warmup_to_code (lr rate : ℚ) (warm_epochs epochs : Nat)
    (cosine : Bool) : ℝ :=
  if cosine then
    let eta_min : ℝ := (lr : ℝ) * (rate : ℝ) ^ 3
    eta_min + ((lr : ℝ) - eta_min) *
      (1 + Real.cos (Real.pi * (warm_epochs : ℝ) / (epochs : ℝ))) / 2
  else (lr : ℝ)

/-- Modelled from the spec's words, for comparison with
`warmup_to_code`: the warmup-end rate is "the base learning rate in
the non-cosine case; and in the cosine case the cosine schedule
evaluated at the end of the warmup epochs, namely
`eta_min + (base_rate - eta_min) * (1 + cos(pi * warm_epochs / epochs)) / 2`
with floor `eta_min = base_rate * decay_rate^3`". -/
noncomputable def warmup_to_spec (base_rate decay_rate : ℚ) (warm_epochs epochs : Nat)
    (cosine : Bool) : ℝ :=
  if cosine then
    let eta_min : ℝ := (base_rate : ℝ) * (decay_rate : ℝ) ^ 3
    eta_min + ((base_rate : ℝ) - eta_min) *
      (1 + Real.cos (Real.pi * (warm_epochs : ℝ) / (epochs : ℝ))) / 2
  else (base_rate : ℝ)

/-! ## Helper lemmas -/

theorem foldl_append_flatten {α β : Type} (f : α → List β) (l : List α) (init : List β) :
    l.foldl (fun acc e => acc ++ f e) init = init ++ (l.map f).flatten := by
  induction l generalizing init with
  | nil => simp
  | cons x xs ih => simp [List.foldl_cons, ih, List.append_assoc]

theorem filterMap_flatten {α β : Type} (g : α → Option β) (L : List (List α)) :
    L.flatten.filterMap g = (L.map (fun l => l.filterMap g)).flatten := by
  induction L with
  | nil => rfl
  | cons x xs ih => simp [List.filterMap_append, ih]

theorem flatten_map_ite_singleton {α β : Type} (p : α → Prop) [DecidablePred p]
    (g : α → β) (l : List α) :
    (l.map (fun e => if p e then [g e] else [])).flatten = (l.filter (fun e => p e)).map g := by
  induction l with
  | nil => rfl
  | cons x xs ih =>
    by_cases hx : p x <;> simp [hx, ih]

theorem filterMap_map_stepRun (g : Event → Option (String × Nat))
    (hg : g = fun ev => match ev with
      | Event.save f e => some (f, e)
      | _ => none)
    (e : Nat) (l : List Nat) :
    (l.map (fun i => Event.stepRun e i)).filterMap g = [] := by
  induction l with
  | nil => rfl
  | cons x xs ih =>
    simp only [List.map_cons, List.filterMap_cons, hg]
    rw [← hg]
    exact ih

theorem saves_of_epoch_events (o : Opt) (lossOf : Nat → List (ℚ × ℚ)) (e : Nat) :
    saves_of (epoch_events o lossOf e) =
      if e % o.save_freq = 0 then [("ckpt_epoch_" ++ toString e ++ ".pth", e)] else [] := by
  unfold saves_of epoch_events
  rw [List.filterMap_append, List.filterMap_append]
  rw [filterMap_map_stepRun _ rfl]
  by_cases hs : e % o.save_freq = 0 <;>
    · simp only [hs, if_true, if_false, List.filterMap_cons, List.filterMap_nil]
      simp

theorem train_loss_meter_closed (steps : List (ℚ × ℚ)) :
    train_loss_meter steps =
      { sum := (steps.map (fun s => s.1 * s.2)).sum,
        count := (steps.map (fun s => s.2)).sum } := by
  unfold train_loss_meter
  suffices h : ∀ (m : AverageMeter),
      steps.foldl (fun m s => m.update s.1 s.2) m =
        { sum := m.sum + (steps.map (fun s => s.1 * s.2)).sum,
          count := m.count + (steps.map (fun s => s.2)).sum } by
    rw [h AverageMeter.init]
    simp [AverageMeter.init]
  induction steps with
  | nil => intro m; simp
  | cons x xs ih =>
    intro m
    rw [List.foldl_cons, ih]
    simp [AverageMeter.update, add_assoc]

theorem train_avg_eq_weighted_avg (steps : List (ℚ × ℚ)) :
    train_avg steps = weighted_avg steps := by
  unfold train_avg weighted_avg AverageMeter.avg
  rw [train_loss_meter_closed]

theorem set_model_select_registry (m : String) (hm : m ∈ registryNames) :
    ∃ mk, set_model_select "sp" m = SelectOutcome.selected mk := by
  simp only [registryNames, List.mem_cons, List.not_mem_nil, or_false] at hm
  unfold set_model_select
  rcases hm with h | h | h
  · exact ⟨ModelKind.CustomCNN, by simp [h]⟩
  · exact ⟨ModelKind.CustomCNNmini, by simp [h]⟩
  · exact ⟨ModelKind.CustomCNNminidrop, by simp [h]⟩

theorem mk_opt_fields (a : Args) (ms : List Int) :
    (mk_opt a ms).dataset = a.dataset ∧ (mk_opt a ms).method = a.method ∧
    (mk_opt a ms).model = a.model ∧ (mk_opt a ms).epochs = a.epochs ∧
    (mk_opt a ms).save_freq = a.save_freq ∧ (mk_opt a ms).batch_size = a.batch_size ∧
    (mk_opt a ms).learning_rate = a.learning_rate ∧
    (mk_opt a ms).lr_decay_rate = a.lr_decay_rate ∧
    (mk_opt a ms).cosine = a.cosine ∧ (mk_opt a ms).lr_decay_epochs = ms ∧
    (mk_opt a ms).warm = (if 256 < a.batch_size then true else a.warm) := by
  simp [mk_opt]

theorem mk_opt_warm_fields (a : Args) (ms : List Int) :
    (mk_opt a ms).warmup_from = (if (mk_opt a ms).warm then some (1 / 100) else none) ∧
    (mk_opt a ms).warm_epochs = (if (mk_opt a ms).warm then some 10 else none) := by
  simp [mk_opt]

theorem main_run_ok (a : Args) (o : Opt) (lossOf : Nat → List (ℚ × ℚ)) (mk : ModelKind)
    (h : parse_option a = some o) (hd : o.dataset = "sp")
    (hm : set_model_select o.dataset o.model = SelectOutcome.selected mk) :
    main_run a lossOf =
      (Event.loaderBuilt Transform.spTrainTransform :: Event.modelBuilt mk ::
        (((List.range' 1 o.epochs).map (epoch_events o lossOf)).flatten
          ++ [Event.save "last.pth" o.epochs]), none) := by
  have hl : set_loader o = Except.ok Transform.spTrainTransform := by
    simp [set_loader, hd]
  simp only [main_run, h, hl, hm, foldl_append_flatten]
  simp


theorem torch_split2_cat {α : Type} (B : Nat) (l1 l2 : List α)
    (h1 : l1.length = B) (h2 : l2.length = B) :
    torch_split2 (torch_cat l1 l2) B = some (l1, l2) := by
  subst h1
  unfold torch_split2 torch_cat
  rw [if_pos (by simp [h2])]
  rw [List.take_left, List.drop_left]

/-- Shared concrete inputs for the closed instances below: the
argparse defaults, the defaults with `--method SimCLR`, and the option
record a successful parse yields. -/
def argsDefault : Args := {}

def argsSimCLR : Args := { method := "SimCLR" }

def optDummy : Opt := mk_opt {} []

def theOpt (a : Args) : Opt := (parse_option a).getD optDummy

/-! ## Claims -/

/-- C1: for two view tensors of batch size B, concatenating along the
batch dimension, passing the [2B] batch through the encoder, and
splitting the embeddings at index B yields the first half
corresponding to view 1 and the second half to view 2, in the
original per-sample order: the concatenate-then-split of the train
step (src lines 156, 164-165) is a lossless, order-preserving round
trip.  The encoder is modelled as acting per sample, preserving batch
positions. -/
theorem c1_concat_split_roundtrip {α β : Type} (encoder : α → β) (B : Nat)
    (v1 v2 : List α) (h1 : v1.length = B) (h2 : v2.length = B) :
    torch_split2 (torch_cat v1 v2) B = some (v1, v2) ∧
    (torch_cat v1 v2).map encoder = torch_cat (v1.map encoder) (v2.map encoder) ∧
    torch_split2 ((torch_cat v1 v2).map encoder) B
      = some (v1.map encoder, v2.map encoder) := by
  have hmap : (torch_cat v1 v2).map encoder
      = torch_cat (v1.map encoder) (v2.map encoder) := by
    simp [torch_cat]
  refine ⟨torch_split2_cat B v1 v2 h1 h2, hmap, ?_⟩
  rw [hmap]
  exact torch_split2_cat B _ _ (by simp [h1]) (by simp [h2])

theorem c1_concat_split_roundtrip_witness :
    ([10, 20] : List Nat).length = 2 ∧ ([30, 40] : List Nat).length = 2 ∧
    (torch_split2 (torch_cat [10, 20] [30, 40]) 2 = some ([10, 20], [30, 40]) ∧
     (torch_cat [10, 20] [30, 40]).map Nat.succ
       = torch_cat ([10, 20].map Nat.succ) ([30, 40].map Nat.succ) ∧
     torch_split2 ((torch_cat [10, 20] [30, 40]).map Nat.succ) 2
       = some ([10, 20].map Nat.succ, [30, 40].map Nat.succ)) :=
  ⟨by decide, by decide,
   c1_concat_split_roundtrip Nat.succ 2 [10, 20] [30, 40] (by decide) (by decide)⟩

/-- C2: in every training step the loss dispatch (src lines 167-170)
calls the criterion with the paired embeddings and the labels when the
configured method is `SupCon`, and with the paired embeddings alone
when it is `SimCLR`; and since `--method` has the closed choice set
{SupCon, SimCLR} (src line 44), no other method value reaches the loss
computation. -/
theorem c2_method_dispatch {D L : Type} (f1 f2 : List D) (labels : L)
    (a : Args) (o : Opt) (h : parse_option a = some o) :
    (o.method = "SupCon" ∨ o.method = "SimCLR") ∧
    (o.method = "SupCon" →
      loss_dispatch o.method (pair_views f1 f2) labels
        = some (LossCall.withLabels (pair_views f1 f2) labels)) ∧
    (o.method = "SimCLR" →
      loss_dispatch o.method (pair_views f1 f2) labels
        = some (LossCall.featuresOnly (pair_views f1 f2))) := by
  obtain ⟨-, hm, -, ms, -, ho⟩ := parse_option_eq_some a o h
  have hmethod : o.method = a.method := by rw [ho]; exact (mk_opt_fields a ms).2.1
  refine ⟨?_, ?_, ?_⟩
  · rw [hmethod]
    simpa [methodChoices] using hm
  · intro hx; simp [loss_dispatch, hx]
  · intro hx; simp [loss_dispatch, hx]

theorem c2_method_dispatch_witness :
    parse_option argsSimCLR = some (theOpt argsSimCLR) ∧
    (((theOpt argsSimCLR).method = "SupCon" ∨ (theOpt argsSimCLR).method = "SimCLR") ∧
     ((theOpt argsSimCLR).method = "SupCon" →
       loss_dispatch (theOpt argsSimCLR).method
           (pair_views ([1, 2] : List ℚ) ([3, 4] : List ℚ)) ([0, 1] : List Nat)
         = some (LossCall.withLabels (pair_views [1, 2] [3, 4]) [0, 1])) ∧
     ((theOpt argsSimCLR).method = "SimCLR" →
       loss_dispatch (theOpt argsSimCLR).method
           (pair_views ([1, 2] : List ℚ) ([3, 4] : List ℚ)) ([0, 1] : List Nat)
         = some (LossCall.featuresOnly (pair_views [1, 2] [3, 4])))) :=
  ⟨rfl, c2_method_dispatch [1, 2] [3, 4] [0, 1] argsSimCLR (theOpt argsSimCLR) rfl⟩

theorem parse_option_rejects (a : Args) (hd : a.dataset ∉ datasetChoices) :
    parse_option a = none := by
  unfold parse_option
  rw [if_neg]
  exact fun hc => hd hc.1

/-- A data pipeline that yields no batches, for the closed instances
below. -/
def lossNone : Nat → List (ℚ × ℚ) := fun _ => []

/-- C3: a configuration whose dataset value is not a supported one
fails with a reported configuration error before any batch is fetched
and before any training step runs: values outside the closed choice
set of `--dataset` (src line 38) are rejected by the parser, and an
accepted value that reaches the loader without a matching transform
branch raises `dataset not supported` in `set_loader` (src line 105),
which `main` calls (src line 195) before constructing the model or
entering the epoch loop — the event trace of such a run is empty. -/
theorem c3_unsupported_dataset_fails_fast (a : Args) (lossOf : Nat → List (ℚ × ℚ)) :
    (a.dataset ∉ datasetChoices →
      parse_option a = none ∧
      main_run a lossOf = ([], some "argument parsing failed")) ∧
    (∀ o, parse_option a = some o → o.dataset ≠ "sp" →
      set_loader o = Except.error ("dataset not supported: " ++ o.dataset) ∧
      main_run a lossOf = ([], some ("dataset not supported: " ++ o.dataset))) := by
  constructor
  · intro hd
    have hp := parse_option_rejects a hd
    exact ⟨hp, by simp [main_run, hp]⟩
  · intro o ho hd
    have hl : set_loader o = Except.error ("dataset not supported: " ++ o.dataset) := by
      simp [set_loader, hd]
    exact ⟨hl, by simp [main_run, ho, hl]⟩

theorem c3_unsupported_dataset_fails_fast_witness :
    ({ dataset := "unknown" } : Args).dataset ∉ datasetChoices ∧
    (parse_option { dataset := "unknown" } = none ∧
     main_run { dataset := "unknown" } lossNone = ([], some "argument parsing failed")) :=
  ⟨by decide, (c3_unsupported_dataset_fails_fast { dataset := "unknown" } lossNone).1 (by decide)⟩

/-- Concrete `rf` configuration satisfying the assert of src line 54. -/
def argsRf : Args :=
  { dataset := "rf", data_folder := some "/data", mean := some "(0.5,)", std := some "(0.5,)" }

/-- C4: dataset `rf` is a value the argument parser accepts — it is in
the choice set (src line 38), subject to the assert that data_folder,
mean and std are provided (src lines 53-54) — yet `set_loader`
unconditionally raises the `dataset not supported` error for it
(src lines 96-105), so no run with dataset `rf` ever constructs a data
loader or executes a training step: the event trace is empty and the
run stops with the ValueError. -/
theorem c4_rf_never_trains (a : Args) (o : Opt) (lossOf : Nat → List (ℚ × ℚ))
    (hd : a.dataset = "rf") (h : parse_option a = some o) :
    "rf" ∈ datasetChoices ∧
    (a.data_folder.isSome ∧ a.mean.isSome ∧ a.std.isSome) ∧
    set_loader o = Except.error ("dataset not supported: " ++ "rf") ∧
    main_run a lossOf = ([], some ("dataset not supported: " ++ "rf")) := by
  obtain ⟨-, -, hassert, ms, -, ho⟩ := parse_option_eq_some a o h
  have hds : o.dataset = a.dataset := by rw [ho]; exact (mk_opt_fields a ms).1
  have hrf : o.dataset = "rf" := by rw [hds, hd]
  have hl : set_loader o = Except.error ("dataset not supported: " ++ "rf") := by
    simp [set_loader, hrf]
  exact ⟨by decide, hassert (Or.inr hd), hl, by simp [main_run, h, hl]⟩

theorem c4_rf_never_trains_witness :
    argsRf.dataset = "rf" ∧ parse_option argsRf = some (theOpt argsRf) ∧
    ("rf" ∈ datasetChoices ∧
     (argsRf.data_folder.isSome ∧ argsRf.mean.isSome ∧ argsRf.std.isSome) ∧
     set_loader (theOpt argsRf) = Except.error ("dataset not supported: " ++ "rf") ∧
     main_run argsRf lossNone = ([], some ("dataset not supported: " ++ "rf"))) :=
  ⟨rfl, rfl, c4_rf_never_trains argsRf (theOpt argsRf) lossNone rfl rfl⟩

/-- C9: for dataset `sp` and a model name outside the registry
{CustomCNN, CustomCNNmini, CustomCNNminidrop}, the selection branch of
`set_model` (src lines 119-127) does not fail fast: it merely prints
`没找到模型<name>` and proceeds with the local variable `model` left
unbound, raising no configuration error at that point. -/
theorem c9_unknown_model_not_fail_fast (m : String) (hm : m ∉ registryNames) :
    set_model_select "sp" m = SelectOutcome.unboundWithPrint ("没找到模型" ++ m) := by
  simp only [registryNames, List.mem_cons, List.not_mem_nil, or_false, not_or] at hm
  obtain ⟨h1, h2, h3⟩ := hm
  simp [set_model_select, h1, h2, h3]

theorem c9_unknown_model_not_fail_fast_witness :
    "resnet50" ∉ registryNames ∧
    set_model_select "sp" "resnet50"
      = SelectOutcome.unboundWithPrint ("没找到模型" ++ "resnet50") :=
  ⟨by decide, c9_unknown_model_not_fail_fast "resnet50" (by decide)⟩

theorem saves_of_flatten (L : List (List Event)) :
    saves_of L.flatten = (L.map (fun l => saves_of l)).flatten :=
  filterMap_flatten _ L

/-- C5: for every run with total epoch count E and cadence save_freq
(nonzero — the Python modulo of src line 214 would raise otherwise),
a checkpoint `ckpt_epoch_<e>.pth` recording epoch e is written at the
end of exactly those epochs e in [1, E] divisible by save_freq
(src lines 214-217), and after the final epoch exactly one additional
checkpoint `last.pth` recording epoch E is written
(src lines 219-221); the run exits cleanly. -/
theorem c5_checkpoint_cadence (a : Args) (o : Opt) (lossOf : Nat → List (ℚ × ℚ))
    (h : parse_option a = some o) (hd : o.dataset = "sp")
    (hm : o.model ∈ registryNames) (hs : 0 < o.save_freq) :
    (main_run a lossOf).2 = none ∧
    saves_of (main_run a lossOf).1 =
      ((List.range' 1 o.epochs).filter (fun e => e % o.save_freq = 0)).map
        (fun e => ("ckpt_epoch_" ++ toString e ++ ".pth", e))
      ++ [("last.pth", o.epochs)] := by
  obtain ⟨mk, hmk⟩ := set_model_select_registry o.model hm
  have hrun := main_run_ok a o lossOf mk h hd (by rw [hd]; exact hmk)
  rw [hrun]
  refine ⟨rfl, ?_⟩
  show saves_of (Event.loaderBuilt Transform.spTrainTransform ::
    Event.modelBuilt mk ::
    (((List.range' 1 o.epochs).map (epoch_events o lossOf)).flatten
      ++ [Event.save "last.pth" o.epochs])) = _
  have hcons : saves_of (Event.loaderBuilt Transform.spTrainTransform ::
      Event.modelBuilt mk ::
      (((List.range' 1 o.epochs).map (epoch_events o lossOf)).flatten
        ++ [Event.save "last.pth" o.epochs]))
      = saves_of (((List.range' 1 o.epochs).map (epoch_events o lossOf)).flatten
          ++ [Event.save "last.pth" o.epochs]) := rfl
  rw [hcons]
  unfold saves_of
  rw [List.filterMap_append]
  have hflat : (((List.range' 1 o.epochs).map (epoch_events o lossOf)).flatten).filterMap
      (fun ev => match ev with
        | Event.save f e => some (f, e)
        | _ => none)
      = ((List.range' 1 o.epochs).map (fun e => saves_of (epoch_events o lossOf e))).flatten := by
    rw [show (((List.range' 1 o.epochs).map (epoch_events o lossOf)).flatten).filterMap
        (fun ev => match ev with
          | Event.save f e => some (f, e)
          | _ => none) = saves_of (((List.range' 1 o.epochs).map (epoch_events o lossOf)).flatten)
      from rfl]
    rw [saves_of_flatten, List.map_map]
    rfl
  rw [hflat]
  simp only [saves_of_epoch_events]
  rw [flatten_map_ite_singleton (fun e => e % o.save_freq = 0)
    (fun e => ("ckpt_epoch_" ++ toString e ++ ".pth", e)) (List.range' 1 o.epochs)]
  rfl

/-- Concrete five-epoch configuration with cadence two. -/
def argsEp5 : Args := { epochs := 5, save_freq := 2 }

theorem c5_checkpoint_cadence_witness :
    parse_option argsEp5 = some (theOpt argsEp5) ∧
    (theOpt argsEp5).dataset = "sp" ∧ (theOpt argsEp5).model ∈ registryNames ∧
    0 < (theOpt argsEp5).save_freq ∧
    ((main_run argsEp5 lossNone).2 = none ∧
     saves_of (main_run argsEp5 lossNone).1 =
       ((List.range' 1 (theOpt argsEp5).epochs).filter
          (fun e => e % (theOpt argsEp5).save_freq = 0)).map
         (fun e => ("ckpt_epoch_" ++ toString e ++ ".pth", e))
       ++ [("last.pth", (theOpt argsEp5).epochs)]) :=
  ⟨rfl, rfl, by decide, by decide,
   c5_checkpoint_cadence argsEp5 (theOpt argsEp5) lossNone rfl rfl (by decide) (by decide)⟩

/-- Concrete two-epoch run for the C6 instances: epoch 1 sees one step
of loss 1 with weight 1, epoch 2 one step of loss 3 with weight 1. -/
def lossTwoEpochs : Nat → List (ℚ × ℚ) :=
  fun e => if e = 1 then [(1, 1)] else if e = 2 then [(3, 1)] else []

def argsEp2 : Args := { epochs := 2 }

/-- C6 as stated is false on the code: in the two-epoch run the loss
average logged for epoch 2 is 3 — the mean of epoch 2's single update
alone — while the mean of all updates since the start of training is
2.  The meters are constructed fresh inside each train call
(src lines 148-150), one per epoch, not one per process. -/
theorem c6_counterexample :
    Event.logLoss 2 (train_avg (lossTwoEpochs 2)) ∈ (main_run argsEp2 lossTwoEpochs).1 ∧
    train_avg (lossTwoEpochs 2) = 3 ∧
    cumulative_avg lossTwoEpochs 2 = 2 ∧ (3 : ℚ) ≠ 2 := by
  have h3 : train_avg (lossTwoEpochs 2) = 3 := by
    rw [train_avg_eq_weighted_avg]
    norm_num [weighted_avg, lossTwoEpochs]
  refine ⟨?_, h3, ?_, by norm_num⟩
  · have hrun := main_run_ok argsEp2 (theOpt argsEp2) lossTwoEpochs
      ModelKind.CustomCNN rfl rfl (by decide)
    rw [hrun]
    simp only [List.mem_cons]
    right; right
    rw [List.mem_append]
    left
    rw [List.mem_flatten]
    exact ⟨epoch_events (theOpt argsEp2) lossTwoEpochs 2,
      List.mem_map_of_mem _ (by decide), by simp [epoch_events]⟩
  · have hr : List.range' 1 2 = [1, 2] := by decide
    unfold cumulative_avg
    rw [train_avg_eq_weighted_avg, hr]
    norm_num [weighted_avg, lossTwoEpochs]

/-- C6 amended: the AverageMeter accumulators for loss and timing are
constructed afresh at the start of each train call (src lines
148-150), i.e. once per epoch, not once per process; the average
reported during epoch e is the weighted mean of epoch e's updates
alone, Σ(vᵢ·wᵢ)/Σwᵢ over that epoch's steps only. -/
theorem c6_amended_per_epoch_average (a : Args) (o : Opt) (lossOf : Nat → List (ℚ × ℚ))
    (h : parse_option a = some o) (hd : o.dataset = "sp") (hm : o.model ∈ registryNames)
    (e : Nat) (he : e ∈ List.range' 1 o.epochs) :
    Event.logLoss e (train_avg (lossOf e)) ∈ (main_run a lossOf).1 ∧
    train_avg (lossOf e) = weighted_avg (lossOf e) := by
  obtain ⟨mk, hmk⟩ := set_model_select_registry o.model hm
  have hrun := main_run_ok a o lossOf mk h hd (by rw [hd]; exact hmk)
  refine ⟨?_, train_avg_eq_weighted_avg _⟩
  rw [hrun]
  simp only [List.mem_cons]
  right; right
  rw [List.mem_append]
  left
  rw [List.mem_flatten]
  exact ⟨epoch_events o lossOf e, List.mem_map_of_mem _ he, by simp [epoch_events]⟩

theorem c6_amended_per_epoch_average_witness :
    parse_option argsEp2 = some (theOpt argsEp2) ∧
    (theOpt argsEp2).dataset = "sp" ∧ (theOpt argsEp2).model ∈ registryNames ∧
    2 ∈ List.range' 1 (theOpt argsEp2).epochs ∧
    (Event.logLoss 2 (train_avg (lossTwoEpochs 2)) ∈ (main_run argsEp2 lossTwoEpochs).1 ∧
     train_avg (lossTwoEpochs 2) = weighted_avg (lossTwoEpochs 2)) :=
  ⟨rfl, rfl, by decide, by decide,
   c6_amended_per_epoch_average argsEp2 (theOpt argsEp2) lossTwoEpochs rfl rfl
     (by decide) 2 (by decide)⟩

/-- C7: after option parsing, a configuration with batch_size greater
than 256 has the warm flag forced on regardless of whether `--warm`
was passed (src lines 71-72); with batch_size at most 256 the flag
keeps its command-line value. -/
theorem c7_warm_forced (a : Args) (o : Opt) (h : parse_option a = some o) :
    (256 < a.batch_size → o.warm = true) ∧
    (a.batch_size ≤ 256 → o.warm = a.warm) := by
  obtain ⟨-, -, -, ms, -, ho⟩ := parse_option_eq_some a o h
  subst ho
  constructor
  · intro hb
    simp [mk_opt, hb]
  · intro hb
    simp [mk_opt, Nat.not_lt.mpr hb]

def argsBig : Args := { batch_size := 512 }

theorem c7_warm_forced_witness :
    parse_option argsBig = some (theOpt argsBig) ∧
    ((256 < argsBig.batch_size → (theOpt argsBig).warm = true) ∧
     (argsBig.batch_size ≤ 256 → (theOpt argsBig).warm = argsBig.warm)) :=
  ⟨rfl, c7_warm_forced argsBig (theOpt argsBig) rfl⟩

/-- C8: whenever warmup is enabled, the warmup-end rate is precomputed
once during option parsing (src lines 77-82) and equals the spec's
formula — the base rate without cosine, and with cosine
`eta_min + (base - eta_min) * (1 + cos(pi * warm_epochs / epochs)) / 2`
with floor `eta_min = base * decay_rate^3` — while the warmup-start
value is the fixed constant 0.01 and the warmup window the fixed 10
epochs, independent of other command-line options (src lines 75-76). -/
theorem c8_warmup_precompute (a : Args) (o : Opt) (h : parse_option a = some o)
    (hw : o.warm = true) :
    o.warmup_from = some (1 / 100) ∧ o.warm_epochs = some 10 ∧
    warmup_to_code o.learning_rate o.lr_decay_rate 10 o.epochs o.cosine
      = warmup_to_spec o.learning_rate o.lr_decay_rate 10 o.epochs o.cosine := by
  obtain ⟨-, -, -, ms, -, ho⟩ := parse_option_eq_some a o h
  subst ho
  refine ⟨?_, ?_, rfl⟩
  · rw [(mk_opt_warm_fields a ms).1, hw]
    simp
  · rw [(mk_opt_warm_fields a ms).2, hw]
    simp

def argsWarmCos : Args := { warm := true, cosine := true }

theorem c8_warmup_precompute_witness :
    parse_option argsWarmCos = some (theOpt argsWarmCos) ∧
    (theOpt argsWarmCos).warm = true ∧
    ((theOpt argsWarmCos).warmup_from = some (1 / 100) ∧
     (theOpt argsWarmCos).warm_epochs = some 10 ∧
     warmup_to_code (theOpt argsWarmCos).learning_rate (theOpt argsWarmCos).lr_decay_rate
         10 (theOpt argsWarmCos).epochs (theOpt argsWarmCos).cosine
       = warmup_to_spec (theOpt argsWarmCos).learning_rate (theOpt argsWarmCos).lr_decay_rate
         10 (theOpt argsWarmCos).epochs (theOpt argsWarmCos).cosine) :=
  ⟨rfl, rfl, c8_warmup_precompute argsWarmCos (theOpt argsWarmCos) rfl rfl⟩

def argsBadMilestones : Args := { lr_decay_epochs := "900,700" }

/-- C10 as stated is false on the code: option parsing performs no
validation of the decay milestones (src lines 61-62 only split and
convert) — the configuration `--lr_decay_epochs 900,700` is accepted,
yielding the milestone list [900, 700], which is not strictly
increasing. -/
theorem c10_counterexample :
    parse_option argsBadMilestones = some (theOpt argsBadMilestones) ∧
    (theOpt argsBadMilestones).lr_decay_epochs = [900, 700] ∧
    ¬ List.Pairwise (fun x y : Int => x < y) ((theOpt argsBadMilestones).lr_decay_epochs) := by
  refine ⟨rfl, by decide, by decide⟩

/-- C10 amended: option parsing converts the milestone string to an
int list without enforcing ordering or range, so accepted
configurations carry exactly the parsed list; for the default
configuration the invariant does hold — milestones [700, 800, 900]
are strictly increasing and lie within [1, epochs] = [1, 1000]. -/
theorem c10_amended_no_validation (a : Args) (o : Opt) (h : parse_option a = some o) :
    parse_lr_decay_epochs a.lr_decay_epochs = some o.lr_decay_epochs ∧
    (a = argsDefault →
      List.Pairwise (fun x y : Int => x < y) o.lr_decay_epochs ∧
      ∀ m ∈ o.lr_decay_epochs, 1 ≤ m ∧ m ≤ (o.epochs : Int)) := by
  obtain ⟨-, -, -, ms, hms, ho⟩ := parse_option_eq_some a o h
  subst ho
  constructor
  · simpa [mk_opt] using hms
  · intro ha
    subst ha
    have hdefault : parse_lr_decay_epochs argsDefault.lr_decay_epochs
        = some [700, 800, 900] := by decide
    rw [hdefault] at hms
    have hms' : ms = [700, 800, 900] := (Option.some.inj hms).symm
    subst hms'
    constructor
    · simp only [mk_opt]
      decide
    · simp only [mk_opt]
      decide

theorem c10_amended_no_validation_witness :
    parse_option argsDefault = some (theOpt argsDefault) ∧
    (parse_lr_decay_epochs argsDefault.lr_decay_epochs
       = some ((theOpt argsDefault).lr_decay_epochs) ∧
     (argsDefault = argsDefault →
       List.Pairwise (fun x y : Int => x < y) ((theOpt argsDefault).lr_decay_epochs) ∧
       ∀ m ∈ (theOpt argsDefault).lr_decay_epochs,
         1 ≤ m ∧ m ≤ ((theOpt argsDefault).epochs : Int))) :=
  ⟨rfl, c10_amended_no_validation argsDefault (theOpt argsDefault) rfl⟩
